import Mathlib

/-!
Verification of the `VegProcessor` repository (files `veg_logic.py` and
`utils.py`) against its natural-language specification.

Shallow embedding conventions:
* Python strings are embedded as `List Char`; a file's stem (its name with
  the final extension removed) is embedded as the list of its
  underscore-separated tokens (`List (List Char)`), which is exactly the
  value of `path.stem.split("_")` that the Python code computes.
* 2-D spatial grids are flattened to lists indexed by a cell number; all
  grid operations in the source are element-wise, so the flattening is
  semantics-preserving.
* A one-year `xr.Dataset` of water depths is a list of time steps, each
  carrying its calendar year, month, and the per-cell depth grid.
  `Dataset.sel(time=slice("Y-03", "Y-05"))` (partial-string indexing,
  inclusive of the whole end month) becomes a filter on year and month.
* `float` depth values are embedded as `ℚ`; boolean means
  (`(arr > 0).mean(dim="time")`) become `count / length` over `ℚ`.
* Python exceptions become explicit error values (`PyErr`); a function that
  can raise returns `Except PyErr _`, and the sequence generator returns
  the copy operations it performed before any abort, paired with the
  abort's error, so that partial side effects stay observable.
-/

/-! ## Calendar dates (`datetime.datetime` restricted to year/month/day) -/

/-- A calendar date as produced by `datetime.strptime(_, "%Y_%m_%d")`:
year in 1..9999, month in 1..12, day valid for the month. -/
structure Date where
  year : Nat
  month : Nat
  day : Nat
deriving DecidableEq, Repr

/-- `datetime` comparison is lexicographic on (year, month, day). -/
def dateLe (a b : Date) : Bool :=
  a.year < b.year ||
    (a.year == b.year &&
      (a.month < b.month || (a.month == b.month && a.day ≤ b.day)))

/-- Gregorian leap-year rule used by `datetime` for date validation. -/
def isLeapYear (y : Nat) : Bool :=
  y % 4 == 0 && (y % 100 != 0 || y % 400 == 0)

/-- Number of days of month `m` of year `y`, as `datetime` validates it. -/
def daysInMonth (y m : Nat) : Nat :=
  if m == 2 then (if isLeapYear y then 29 else 28)
  else if m == 4 || m == 6 || m == 9 || m == 11 then 30
  else 31

/-! ## `utils.extract_date` -/

/-- One underscore-free token of a file stem. -/
abbrev Token := List Char

/-- A source file, represented by the underscore-split tokens of its stem
(the value of `path.stem.split("_")` in the Python code). -/
abbrev SrcFile := List Token

def isDigitChar (c : Char) : Bool := '0' ≤ c && c ≤ '9'

/-- Numeric value of a digit character. -/
def digitVal (c : Char) : Nat := c.toNat - 48

/-- Decimal value of a digit token (left-to-right accumulation, exactly
what `int` parsing of a digit string computes). -/
def parseNatTok (t : Token) : Nat :=
  t.foldl (fun n c => 10 * n + digitVal c) 0

/-- A token consisting of one or more digit characters. -/
def allDigits (t : Token) : Bool := !t.isEmpty && t.all isDigitChar

/-- Model of `datetime.strptime(ys ++ "_" ++ ms ++ "_" ++ ds, "%Y_%m_%d")`,
returning `none` where Python raises `ValueError`.  CPython's `_strptime`
matches `%Y` against exactly four digits, `%m` against one or two digits
with value 1..12, `%d` against one or two digits with value 1..31, and then
validates the calendar date (including leap years); year 0 is rejected by
the `datetime` range check. -/
def parseDateTokens (ys ms ds : Token) : Option Date :=
  if allDigits ys && ys.length == 4
      && allDigits ms && ms.length ≤ 2
      && allDigits ds && ds.length ≤ 2 then
    let y := parseNatTok ys
    let m := parseNatTok ms
    let d := parseNatTok ds
    if 1 ≤ y && 1 ≤ m && m ≤ 12 && 1 ≤ d && d ≤ daysInMonth y m then
      some ⟨y, m, d⟩
    else none
  else none

/-- `utils.extract_date`: take the last three underscore-separated tokens
of the stem (`path.stem.split("_")[-3:]`), rejoin them, and parse them as
`YYYY_MM_DD`; any parse failure yields the explicit no-date result `none`
(the Python code catches `ValueError`/`IndexError` and returns `None`).
With fewer than three tokens the rejoined string cannot match the
three-field format, so the result is `none`. -/
def extract_date (stemTokens : SrcFile) : Option Date :=
  match stemTokens.drop (stemTokens.length - 3) with
  | [ys, ms, ds] => parseDateTokens ys ms ds
  | _ => none

/-! ## `veg_logic.zone_v` -/

/-- One time step of the one-year depth dataset: its timestamp's calendar
year and month, and the flattened spatial grid of `WSE_MEAN` depths. -/
structure TimeStep where
  year : Int
  month : Nat
  depth : List ℚ
deriving DecidableEq, Repr

/-- Depth of cell `c` at time step `t` (element-wise array access). -/
def depthAt (t : TimeStep) (c : Nat) : ℚ := t.depth.getD c 0

/-- `water_depth.sel(time=slice(f"{year}-03", f"{year}-05"))`: the steps
whose timestamp falls in March, April or May of `year`. -/
def marMaySel (wd : List TimeStep) (y : Int) : List TimeStep :=
  wd.filter (fun t => t.year == y && 3 ≤ t.month && t.month ≤ 5)

/-- `water_depth.sel(time=slice(f"{year}-04", f"{year}-09"))`: the steps
whose timestamp falls in the growing season April–September of `year`. -/
def growingSeasonSel (wd : List TimeStep) (y : Int) : List TimeStep :=
  wd.filter (fun t => t.year == y && 4 ≤ t.month && t.month ≤ 9)

/-- Condition 1 of `zone_v`: `(filtered_1["WSE_MEAN"] <= 0).any(dim="time")`
at cell `c`. -/
def condition_1 (wd : List TimeStep) (y : Int) (c : Nat) : Bool :=
  (marMaySel wd y).any (fun t => depthAt t c ≤ 0)

/-- `condition_2_pct` of `zone_v`:
`(filtered_2["WSE_MEAN"] > 0).mean(dim="time")` at cell `c`, i.e. the
fraction of growing-season steps with positive depth.  (For an empty
window NumPy yields NaN and `NaN > 0.2` is false; here `0/0 = 0` and
`0 > 0.2` is false, so the derived boolean agrees.) -/
def condition_2_pct (wd : List TimeStep) (y : Int) (c : Nat) : ℚ :=
  (((growingSeasonSel wd y).countP (fun t => 0 < depthAt t c) : ℚ)) /
    ((growingSeasonSel wd y).length : ℚ)

/-- Condition 2 of `zone_v`: growing-season inundation fraction `> 0.2`. -/
def condition_2 (wd : List TimeStep) (y : Int) (c : Nat) : Bool :=
  decide (condition_2_pct wd y c > 0.2)

/-- Cell-by-cell body of `zone_v`: starting at cell index `c`, replace a
value by 16 exactly on the combined mask
`(veg_type == 15) & condition_1 & condition_2` and keep it otherwise
(`veg_type[combined_mask] = 16`). -/
def zone_vAux (wd : List TimeStep) (y : Int) : Nat → List Int → List Int
  | _, [] => []
  | c, v :: vs =>
    (if v == 15 && condition_1 wd y c && condition_2 wd y c then 16 else v)
      :: zone_vAux wd y (c + 1) vs

/-- `veg_logic.zone_v`: the updated vegetation grid.  The `date` argument
is only consulted for its year, so the model takes the year directly; the
`plot` side channel and the logger do not affect the returned grid and are
omitted. -/
def zone_v (veg_type : List Int) (water_depth : List TimeStep) (y : Int) :
    List Int :=
  zone_vAux water_depth y 0 veg_type

/-! ## `veg_logic.zone_iv` / `veg_logic.zone_iii` -/

/-- Possible results of a zone-rule call in the Python source: a NumPy
vegetation array, or the `NotImplementedError` exception *class object*
returned (not raised) as an ordinary value. -/
inductive ZoneResult where
  | arr (a : List Int)
  | notImplementedErrorClass
deriving DecidableEq, Repr

/-- `veg_logic.zone_iv`: `return NotImplementedError` — the class object
itself is returned; nothing is raised. -/
def zone_iv {α β γ : Type} (_arg1 : α) (_arg2 : β) (_arg3 : γ) : ZoneResult :=
  ZoneResult.notImplementedErrorClass

/-- `veg_logic.zone_iii`: `return NotImplementedError` — the class object
itself is returned; nothing is raised. -/
def zone_iii {α β γ : Type} (_arg1 : α) (_arg2 : β) (_arg3 : γ) : ZoneResult :=
  ZoneResult.notImplementedErrorClass

/-! ## `utils.generate_combined_sequence` -/

/-- The Python exceptions the modelled code can raise, with enough of the
message to tell the spec's error classes apart. -/
inductive PyErr where
  | fileNotFound
  | missingData (year : Nat)
  | typeError
  | attributeError
  | keyError
  | shapeMismatch (name : List Char)
deriving DecidableEq, Repr

/-- One entry of the `quintile_sequence` DataFrame: its `"Water Year"`
column (the target/analog year) and its `Quintile` column. -/
structure TargetEntry where
  waterYear : Nat
  quintile : Nat
deriving DecidableEq, Repr

/-- Lookup in the `quintile_to_year_map` dict; a missing key would be a
`KeyError` in Python. -/
def lookupQ : List (Nat × Nat) → Nat → Option Nat
  | [], _ => none
  | (k, v) :: rest, q => if k == q then some v else lookupQ rest q

/-- The stem rejoined with underscores, used for the `"SLR" not in
str(file)` substring test and for `sort()` order. -/
def flattenStem (f : SrcFile) : List Char := List.intercalate ['_'] f

/-- `pat` occurs at the start of `s`. -/
def startsWithChars : List Char → List Char → Bool
  | [], _ => true
  | _ :: _, [] => false
  | a :: as, b :: bs => a == b && startsWithChars as bs

/-- `pat` occurs contiguously somewhere in `s` (Python's `in` on str). -/
def containsChars (pat : List Char) : List Char → Bool
  | [] => pat.isEmpty
  | c :: cs => startsWithChars pat (c :: cs) || containsChars pat cs

/-- `"SLR" in str(file)`. -/
def containsSLR (f : SrcFile) : Bool :=
  containsChars ['S', 'L', 'R'] (flattenStem f)

/-- The catalog after the list-comprehension filter dropping files whose
path mentions `"SLR"`. -/
def filterSLRList (files : List SrcFile) : List SrcFile :=
  files.filter (fun f => !containsSLR f)

/-- Lexicographic order on strings, the order `sort()` uses on paths. -/
def charsLe : List Char → List Char → Bool
  | [], _ => true
  | _ :: _, [] => false
  | a :: as, b :: bs => a < b || (a == b && charsLe as bs)

/-- Insertion step of the sort of `source_year_paths`. -/
def insertSorted (p : SrcFile) : List SrcFile → List SrcFile
  | [] => [p]
  | q :: qs =>
    if charsLe (flattenStem p) (flattenStem q) then p :: q :: qs
    else q :: insertSorted p qs

/-- `source_year_paths.sort()` (insertion sort; only the multiset of
elements matters to the claims below). -/
def sortFiles : List SrcFile → List SrcFile
  | [] => []
  | p :: ps => insertSorted p (sortFiles ps)

/-- `datetime(source_year - 1, 10, 1)`, the start of the water year. -/
def startDate (sourceYear : Nat) : Date := ⟨sourceYear - 1, 10, 1⟩

/-- `datetime(source_year, 9, 30)`, the end of the water year. -/
def endDate (sourceYear : Nat) : Date := ⟨sourceYear, 9, 30⟩

/-- The list comprehension
`[p for p in source_files if start <= extract_date(p) <= end]`.
When `extract_date` returns `None`, the chained comparison evaluates
`start <= None` and Python raises `TypeError`; the model surfaces that as
`PyErr.typeError`. -/
def selectInRange (start stop : Date) : List SrcFile → Except PyErr (List SrcFile)
  | [] => .ok []
  | p :: ps =>
    match extract_date p with
    | none => .error PyErr.typeError
    | some dt =>
      match selectInRange start stop ps with
      | .error e => .error e
      | .ok rest =>
        .ok (if dateLe start dt && dateLe dt stop then p :: rest else rest)

/-- Digit characters as explicit literals (value `n` for `n ≤ 9`). -/
def digChar (n : Nat) : Char :=
  match n with
  | 0 => '0' | 1 => '1' | 2 => '2' | 3 => '3' | 4 => '4'
  | 5 => '5' | 6 => '6' | 7 => '7' | 8 => '8' | 9 => '9'
  | _ => '*'

/-- Fuelled helper for `toDecChars`; the fuel only bounds the recursion
depth (one digit per unit) and never runs out when it starts at `n + 1`. -/
def toDecCharsAux : Nat → Nat → List Char
  | 0, _ => []
  | fuel + 1, n =>
    if n < 10 then [digChar n]
    else toDecCharsAux fuel (n / 10) ++ [digChar (n % 10)]

/-- Unpadded decimal rendering of a natural number, as the f-string
`f"{replacement_year}"` renders a Python int. -/
def toDecChars (n : Nat) : List Char := toDecCharsAux (n + 1) n

/-- Two-digit zero-padded rendering, as `f"{x:02d}"` renders ints below
100. -/
def fmt2 (n : Nat) : List Char :=
  if n < 10 then ['0', digChar n] else [digChar (n / 10), digChar (n % 10)]

/-- The destination file name
`f"WSE_MEAN_{year}_{month:02d}_{day:02d}.tif"`. -/
def wseName (y m d : Nat) : List Char :=
  ['W', 'S', 'E', '_', 'M', 'E', 'A', 'N', '_'] ++ toDecChars y
    ++ '_' :: fmt2 m ++ '_' :: fmt2 d ++ ['.', 't', 'i', 'f']

/-- One performed `shutil.copy`: the source file and the destination file
name it was copied to. -/
structure CopyOp where
  src : SrcFile
  dest : List Char
deriving DecidableEq, Repr

/-- The copy loop over `source_year_paths` for one target entry:
re-extract each file's date, relabel Oct/Nov/Dec files with
`analog_year - 1` and all others with `analog_year`, and record the copy.
`extract_date` returning `None` here would make `file_date.month` raise
`AttributeError` (unreachable in practice because `selectInRange` already
raised on such files). -/
def copyOpsE (analogYear : Nat) : List SrcFile → Except PyErr (List CopyOp)
  | [] => .ok []
  | p :: ps =>
    match extract_date p with
    | none => .error PyErr.attributeError
    | some dt =>
      let replacementYear :=
        if dt.month ∈ [10, 11, 12] then analogYear - 1 else analogYear
      match copyOpsE analogYear ps with
      | .error e => .error e
      | .ok ops => .ok (⟨p, wseName replacementYear dt.month dt.day⟩ :: ops)

/-- The body of the `for _, i in quintile_sequence.iterrows()` loop for a
single target entry: resolve the source year through the quintile map,
select and sort the files of that water year, fail with the
`"Missing data in source files"` `ValueError` when fewer than 12 remain,
and otherwise produce the copy operations. -/
def processEntry (qmap : List (Nat × Nat)) (files : List SrcFile)
    (e : TargetEntry) : Except PyErr (List CopyOp) :=
  match lookupQ qmap e.quintile with
  | none => .error PyErr.keyError
  | some sourceYear =>
    match selectInRange (startDate sourceYear) (endDate sourceYear) files with
    | .error err => .error err
    | .ok matched =>
      let sorted := sortFiles matched
      if sorted.length < 12 then .error (PyErr.missingData sourceYear)
      else copyOpsE e.waterYear sorted

/-- Sequential processing of the target entries, accumulating the copies
made before the first uncaught exception (if any) aborts the run. -/
def runEntries (qmap : List (Nat × Nat)) (files : List SrcFile) :
    List TargetEntry → List CopyOp × Option PyErr
  | [] => ([], none)
  | e :: rest =>
    match processEntry qmap files e with
    | .error err => ([], some err)
    | .ok ops =>
      let r := runEntries qmap files rest
      (ops ++ r.1, r.2)

/-- `utils.generate_combined_sequence`: filter the `"SLR"` variants out of
the catalog, raise `FileNotFoundError` when no `.tif` files remain at all,
and otherwise process the target entries in order.  The result is the list
of file copies performed, together with the error that aborted the run,
when one did. -/
def generate_combined_sequence (quintile_sequence : List TargetEntry)
    (quintile_to_year_map : List (Nat × Nat)) (files : List SrcFile) :
    List CopyOp × Option PyErr :=
  let source_files := filterSLRList files
  if source_files.isEmpty then ([], some PyErr.fileNotFound)
  else runEntries quintile_to_year_map source_files quintile_sequence

/-! ## `utils.create_dataset_from_template` -/

/-- A bare NumPy array: only its shape matters to the modelled code. -/
structure NDArray where
  shape : List Nat
deriving DecidableEq, Repr

/-- The template's `WSE_MEAN` reference variable: its shape and its
dimension labels. -/
structure RefVar where
  shape : List Nat
  dims : List (List Char)
deriving DecidableEq, Repr

/-- The template `xr.Dataset`: coordinates, the `WSE_MEAN` reference
variable, and global attributes. -/
structure TemplateDataset where
  coords : List (List Char)
  wse_mean : RefVar
  attrs : List (List Char × List Char)
deriving DecidableEq, Repr

/-- A variable of the constructed dataset: name, data, the dims it was
given, and its attrs. -/
structure OutVar where
  name : List Char
  data : NDArray
  dims : List (List Char)
  attrs : List (List Char × List Char)
deriving DecidableEq, Repr

/-- The constructed `xr.Dataset`. -/
structure OutDataset where
  coords : List (List Char)
  vars : List OutVar
  attrs : List (List Char × List Char)
deriving DecidableEq, Repr

/-- One entry of the `new_variables` dict: name, data array, attrs. -/
abbrev NewVar := List Char × NDArray × List (List Char × List Char)

/-- The `for var_name, (data, attrs) in new_variables.items()` loop:
raise the shape-mismatch `ValueError` at the first variable whose array
shape differs from `template["WSE_MEAN"].shape` (the check compares raw
shapes only — dimension labels play no part), and otherwise add the
variable with the template's dims. -/
def addVars (t : TemplateDataset) : List NewVar → Except PyErr (List OutVar)
  | [] => .ok []
  | (name, data, attrs) :: rest =>
    if data.shape ≠ t.wse_mean.shape then .error (PyErr.shapeMismatch name)
    else
      match addVars t rest with
      | .error e => .error e
      | .ok vs => .ok (⟨name, data, t.wse_mean.dims, attrs⟩ :: vs)

/-- `utils.create_dataset_from_template`: copy the template's coords, add
each new variable (aborting on the first shape mismatch), and copy the
template's global attrs. -/
def create_dataset_from_template (t : TemplateDataset)
    (new_variables : List NewVar) : Except PyErr OutDataset :=
  match addVars t new_variables with
  | .error e => .error e
  | .ok vs => .ok ⟨t.coords, vs, t.attrs⟩

/-! ## Spec-side date formatting (for the round-trip property) -/

/-- The exactly-four-digit `YYYY` rendering of a year below 10000. -/
def fmtYear4 (y : Nat) : List Char :=
  [digChar (y / 1000), digChar (y / 100 % 10), digChar (y / 10 % 10),
   digChar (y % 10)]

/-! ## Concrete fixtures used by witnesses and counterexamples -/

/-- A growing-season time step of year 2020 with a single cell. -/
def gsStep (m : Nat) (d0 : ℚ) : TimeStep := ⟨2020, m, [d0]⟩

/-- Ten April–September steps, three of them with positive depth. -/
def wd10a : List TimeStep :=
  [gsStep 4 1, gsStep 4 1, gsStep 5 1, gsStep 5 0, gsStep 6 0,
   gsStep 6 0, gsStep 7 0, gsStep 8 0, gsStep 8 0, gsStep 9 0]

/-- Ten April–September steps, one of them with positive depth. -/
def wd10b : List TimeStep :=
  [gsStep 4 1, gsStep 4 0, gsStep 5 0, gsStep 5 0, gsStep 6 0,
   gsStep 6 0, gsStep 7 0, gsStep 8 0, gsStep 8 0, gsStep 9 0]

/-- A one-year depth dataset over three cells: cell 0 meets both Zone V
hydrologic conditions, cell 1 meets the March–May condition but fails the
growing-season frequency condition, and cell 2 has the same hydrology as
cell 0. -/
def wdC : List TimeStep :=
  [⟨2020, 3, [0, 0, 0]⟩,
   ⟨2020, 4, [1, 1, 1]⟩, ⟨2020, 4, [1, 0, 1]⟩, ⟨2020, 5, [1, 0, 1]⟩,
   ⟨2020, 5, [0, 0, 0]⟩, ⟨2020, 6, [0, 0, 0]⟩, ⟨2020, 7, [0, 0, 0]⟩,
   ⟨2020, 8, [0, 0, 0]⟩, ⟨2020, 8, [0, 0, 0]⟩, ⟨2020, 9, [0, 0, 0]⟩,
   ⟨2020, 9, [0, 0, 0]⟩]

/-- A vegetation grid: two Zone V cells and one cell of another zone. -/
def vegC : List Int := [15, 15, 14]

/-- The stem tokens of a file named `WSE_MEAN_<y>_<m:02d>_<d:02d>.tif`. -/
def mkStem (y m d : Nat) : SrcFile :=
  [['W', 'S', 'E'], ['M', 'E', 'A', 'N'], toDecChars y, fmt2 m, fmt2 d]

/-- A complete source water year 2005: monthly files from October 2004
through September 2005. -/
def files12C : List SrcFile :=
  [mkStem 2004 10 1, mkStem 2004 11 1, mkStem 2004 12 1, mkStem 2005 1 1,
   mkStem 2005 2 1, mkStem 2005 3 1, mkStem 2005 4 1, mkStem 2005 5 1,
   mkStem 2005 6 1, mkStem 2005 7 1, mkStem 2005 8 1, mkStem 2005 9 1]

/-- Water year 2005 with September missing: only 11 qualifying files. -/
def files11C : List SrcFile :=
  [mkStem 2004 10 1, mkStem 2004 11 1, mkStem 2004 12 1, mkStem 2005 1 1,
   mkStem 2005 2 1, mkStem 2005 3 1, mkStem 2005 4 1, mkStem 2005 5 1,
   mkStem 2005 6 1, mkStem 2005 7 1, mkStem 2005 8 1]

/-- A target entry mapping water year 2030 to quintile 1. -/
def entryC : TargetEntry := ⟨2030, 1⟩

/-- A quintile map sending quintile 1 to source year 2005. -/
def qmapC : List (Nat × Nat) := [(1, 2005)]

/-- A quintile map sending quintile 1 to source year 2000. -/
def qmapD : List (Nat × Nat) := [(1, 2000)]

/-- A file stem with no embedded date. -/
def noDateStem : SrcFile := [['n', 'o', 't', 'e', 's']]

/-- The first copy produced when `files12C` is mapped to target year 2030:
the October 2004 file, relabeled to October of 2029. -/
def opC : CopyOp := ⟨mkStem 2004 10 1, wseName 2029 10 1⟩

/-- A template whose `WSE_MEAN` variable has shape 12 × 4 × 5. -/
def tmplC : TemplateDataset :=
  ⟨[['t', 'i', 'm', 'e'], ['y'], ['x']],
   ⟨[12, 4, 5], [['t', 'i', 'm', 'e'], ['y'], ['x']]⟩,
   [(['t', 'i', 't', 'l', 'e'], ['w', 's', 'e'])]⟩

/-- A new variable whose array shape disagrees with `tmplC`. -/
def nvBadC : NewVar := (['v', 'e', 'g'], ⟨[4, 5]⟩, [])

/-- A batch of new variables containing the mismatching `nvBadC`. -/
def nvsBadC : List NewVar := [(['o', 'k'], ⟨[12, 4, 5]⟩, []), nvBadC]

/-! # Theorems -/

/-! ## Helper lemmas about `zone_v` -/

/-- `condition_2` in counting form: the mean of the indicator exceeds
`0.2` exactly when five times the count of positive-depth steps exceeds
the window length. -/
theorem condition_2_eq_count (wd : List TimeStep) (y : Int) (c : Nat) :
    condition_2 wd y c =
      decide ((growingSeasonSel wd y).length <
        5 * (growingSeasonSel wd y).countP (fun t => decide (0 < depthAt t c))) := by
  unfold condition_2 condition_2_pct
  have hk : (growingSeasonSel wd y).countP (fun t => decide (0 < depthAt t c)) ≤
      (growingSeasonSel wd y).length := List.countP_le_length _
  set k := (growingSeasonSel wd y).countP (fun t => decide (0 < depthAt t c))
  set n := (growingSeasonSel wd y).length
  rcases Nat.eq_zero_or_pos n with h0 | hpos
  · have hk0 : k = 0 := by omega
    simp [h0, hk0]
    norm_num
  · rw [decide_eq_decide]
    rw [gt_iff_lt, lt_div_iff₀ (by positivity)]
    rw [show (0.2 : ℚ) = 1 / 5 by norm_num]
    constructor
    · intro h
      have h5 : (n : ℚ) < 5 * (k : ℚ) := by linarith
      exact_mod_cast h5
    · intro h
      have h5 : (n : ℚ) < 5 * (k : ℚ) := by exact_mod_cast h
      linarith

/-- Length preservation of the cell-by-cell update. -/
theorem zone_vAux_length (wd : List TimeStep) (y : Int) :
    ∀ (vs : List Int) (c0 : Nat), (zone_vAux wd y c0 vs).length = vs.length := by
  intro vs
  induction vs with
  | nil => intro c0; rfl
  | cons v vs ih =>
    intro c0
    simp only [zone_vAux, List.length_cons, ih (c0 + 1)]

/-- Pointwise description of the cell-by-cell update, with the running
start index made explicit. -/
theorem zone_vAux_getD (wd : List TimeStep) (y : Int) :
    ∀ (vs : List Int) (c0 c : Nat), c < vs.length →
      (zone_vAux wd y c0 vs).getD c 0 =
        if vs.getD c 0 = 15 ∧ condition_1 wd y (c0 + c) = true ∧
            condition_2 wd y (c0 + c) = true
        then 16 else vs.getD c 0 := by
  intro vs
  induction vs with
  | nil => intro c0 c h; simp at h
  | cons v vs ih =>
    intro c0 c h
    cases c with
    | zero =>
      simp only [zone_vAux, List.getD_cons_zero, Nat.add_zero]
      by_cases h15 : v = 15 <;>
        cases h1 : condition_1 wd y c0 <;>
        cases h2 : condition_2 wd y c0 <;>
        simp [h15, h1, h2]
    | succ c =>
      simp only [zone_vAux, List.getD_cons_succ]
      rw [ih (c0 + 1) c (by simpa using h)]
      have harith : c0 + 1 + c = c0 + (c + 1) := by omega
      rw [harith]

/-! ## C1: `zone_v` end-to-end cell semantics -/

/-- C1: one invocation of `zone_v` preserves the grid's size and sets a
cell's code to 16 exactly when its current code is 15, some March–May step
has depth ≤ 0 there, and the fraction of April–September steps with
depth > 0 strictly exceeds 0.2; every other cell keeps its input value (a
15-cell failing either hydrologic condition stays 15, and a non-15 cell is
never changed regardless of hydrology). -/
theorem zone_v_cell_spec (veg : List Int) (wd : List TimeStep) (y : Int) :
    (zone_v veg wd y).length = veg.length ∧
    ∀ c, c < veg.length →
      (zone_v veg wd y).getD c 0 =
        if veg.getD c 0 = 15 ∧ condition_1 wd y c = true ∧
            condition_2 wd y c = true
        then 16 else veg.getD c 0 := by
  constructor
  · exact zone_vAux_length wd y veg 0
  · intro c hc
    have h := zone_vAux_getD wd y veg 0 c hc
    rwa [Nat.zero_add] at h

/-- Witness for C1: on the concrete three-cell grid, the theorem applies
at cell 0 (whose index bound is discharged by evaluation). -/
theorem zone_v_cell_spec_witness :
    (zone_v vegC wdC 2020).length = vegC.length ∧
    (zone_v vegC wdC 2020).getD 0 0 =
      (if vegC.getD 0 0 = 15 ∧ condition_1 wdC 2020 0 = true ∧
          condition_2 wdC 2020 0 = true
       then 16 else vegC.getD 0 0) :=
  ⟨(zone_v_cell_spec vegC wdC 2020).1,
   (zone_v_cell_spec vegC wdC 2020).2 0 (by decide)⟩

/-! ## C6: the frequency condition -/

/-- C6: the growing-season frequency condition holds at a cell exactly
when the fraction of April–September steps with depth > 0 strictly
exceeds 0.2 (equivalently, five times the count of such steps exceeds the
window length); with 3 of 10 window steps positive it is true, and with
1 of 10 it is false. -/
theorem condition_2_spec :
    (∀ (wd : List TimeStep) (y : Int) (c : Nat),
       condition_2 wd y c = true ↔
         (growingSeasonSel wd y).length <
           5 * (growingSeasonSel wd y).countP (fun t => decide (0 < depthAt t c))) ∧
    condition_2 wd10a 2020 0 = true ∧ condition_2 wd10b 2020 0 = false := by
  refine ⟨?_, ?_, ?_⟩
  · intro wd y c
    rw [condition_2_eq_count, decide_eq_true_eq]
  · rw [condition_2_eq_count]; decide
  · rw [condition_2_eq_count]; decide

/-! ## C9: the placeholder zone rules -/

/-- C9: `zone_iv` and `zone_iii` never yield a vegetation array (and the
model has no raising path): each returns the `NotImplementedError` class
object itself, despite the declared `np.ndarray` return type. -/
theorem zone_placeholder_results {α β γ : Type} (a : α) (b : β) (c : γ) :
    zone_iv a b c = ZoneResult.notImplementedErrorClass ∧
    zone_iii a b c = ZoneResult.notImplementedErrorClass ∧
    (∀ v : List Int, zone_iv a b c ≠ ZoneResult.arr v) ∧
    (∀ v : List Int, zone_iii a b c ≠ ZoneResult.arr v) :=
  ⟨rfl, rfl, fun _ h => ZoneResult.noConfusion h,
   fun _ h => ZoneResult.noConfusion h⟩

/-- Witness for C9 at concrete arguments. -/
theorem zone_placeholder_results_witness :
    zone_iv (0 : Nat) (0 : Nat) (0 : Nat) = ZoneResult.notImplementedErrorClass ∧
    zone_iii (0 : Nat) (0 : Nat) (0 : Nat) = ZoneResult.notImplementedErrorClass :=
  ⟨(zone_placeholder_results 0 0 0).1, (zone_placeholder_results 0 0 0).2.1⟩

/-! ## C10: idempotence of `zone_v` -/

/-- One pass of the cell-by-cell update absorbs a second pass started at
the same cell index. -/
theorem zone_vAux_idem (wd : List TimeStep) (y : Int) :
    ∀ (vs : List Int) (c0 : Nat),
      zone_vAux wd y c0 (zone_vAux wd y c0 vs) = zone_vAux wd y c0 vs := by
  intro vs
  induction vs with
  | nil => intro c0; rfl
  | cons v vs ih =>
    intro c0
    simp only [zone_vAux]
    cases h1 : condition_1 wd y c0 <;> cases h2 : condition_2 wd y c0 <;>
      by_cases hv : v == 15 <;>
      simp [zone_vAux, h1, h2, hv, ih (c0 + 1),
        show ((16 : Int) == 15) = false from rfl]

/-- C10: `zone_v` is idempotent — re-applying it with the same depth
dataset and reference year leaves the grid of the first application
unchanged (transitioned cells no longer match code 15, and cells still
coded 15 fail the same hydrologic conditions again). -/
theorem zone_v_idempotent (veg : List Int) (wd : List TimeStep) (y : Int) :
    zone_v (zone_v veg wd y) wd y = zone_v veg wd y :=
  zone_vAux_idem wd y veg 0

/-! ## Helper lemmas about `generate_combined_sequence` -/

/-- Inserting into the sorted list adds exactly one element. -/
theorem insertSorted_length (p : SrcFile) :
    ∀ l : List SrcFile, (insertSorted p l).length = l.length + 1 := by
  intro l
  induction l with
  | nil => rfl
  | cons q qs ih =>
    simp only [insertSorted]
    split
    · simp
    · simp [ih]

/-- Sorting preserves the number of selected files. -/
theorem sortFiles_length : ∀ l : List SrcFile, (sortFiles l).length = l.length := by
  intro l
  induction l with
  | nil => rfl
  | cons p ps ih => simp [sortFiles, insertSorted_length, ih]

/-- Every copy produced by the copy loop re-extracts its source's date
and renames it to `WSE_MEAN_<year>_<month:02d>_<day:02d>.tif`, where the
year is `analogYear - 1` for October–December dates and `analogYear`
otherwise. -/
theorem copyOpsE_dest (A : Nat) :
    ∀ (ps : List SrcFile) (ops : List CopyOp), copyOpsE A ps = .ok ops →
      ∀ op ∈ ops, ∃ dt : Date, extract_date op.src = some dt ∧
        op.dest = wseName (if dt.month ∈ [10, 11, 12] then A - 1 else A)
          dt.month dt.day := by
  intro ps
  induction ps with
  | nil =>
    intro ops h op hop
    simp only [copyOpsE] at h
    cases h
    simp at hop
  | cons p ps ih =>
    intro ops h op hop
    simp only [copyOpsE] at h
    cases hd : extract_date p with
    | none => rw [hd] at h; cases h
    | some dt =>
      rw [hd] at h
      cases hrec : copyOpsE A ps with
      | error e => rw [hrec] at h; cases h
      | ok rest =>
        rw [hrec] at h
        cases h
        rcases List.mem_cons.mp hop with rfl | hmem
        · exact ⟨dt, hd, rfl⟩
        · exact ih rest hrec op hmem

/-- Decomposition of a successful entry: a successful entry resolved its
source year, selected its files without a raise, passed the 12-file
check, and its copies are those of the copy loop over the sorted files. -/
theorem processEntry_ok (qmap : List (Nat × Nat)) (files : List SrcFile)
    (e : TargetEntry) (ops : List CopyOp)
    (h : processEntry qmap files e = .ok ops) :
    ∃ y, lookupQ qmap e.quintile = some y ∧
      ∃ matched, selectInRange (startDate y) (endDate y) files = .ok matched ∧
        copyOpsE e.waterYear (sortFiles matched) = .ok ops := by
  unfold processEntry at h
  cases hq : lookupQ qmap e.quintile with
  | none => simp only [hq] at h; exact Except.noConfusion h
  | some y =>
    simp only [hq] at h
    refine ⟨y, rfl, ?_⟩
    cases hs : selectInRange (startDate y) (endDate y) files with
    | error err => simp only [hs] at h; exact Except.noConfusion h
    | ok matched =>
      simp only [hs] at h
      refine ⟨matched, rfl, ?_⟩
      by_cases hlen : (sortFiles matched).length < 12
      · rw [if_pos hlen] at h; exact Except.noConfusion h
      · rw [if_neg hlen] at h; exact h

/-- Every copy of a run belongs to some successfully processed entry. -/
theorem runEntries_ops (qmap : List (Nat × Nat)) (files : List SrcFile) :
    ∀ (seq : List TargetEntry) (op : CopyOp),
      op ∈ (runEntries qmap files seq).1 →
      ∃ e, e ∈ seq ∧ ∃ ops, processEntry qmap files e = .ok ops ∧ op ∈ ops := by
  intro seq
  induction seq with
  | nil => intro op hop; simp [runEntries] at hop
  | cons e rest ih =>
    intro op hop
    simp only [runEntries] at hop
    cases hp : processEntry qmap files e with
    | error err => rw [hp] at hop; simp at hop
    | ok ops =>
      rw [hp] at hop
      rcases List.mem_append.mp hop with h1 | h2
      · exact ⟨e, List.mem_cons_self e rest, ops, hp, h1⟩
      · obtain ⟨e2, he2, ops2, hp2, hin2⟩ := ih op h2
        exact ⟨e2, List.mem_cons_of_mem e he2, ops2, hp2, hin2⟩

/-- An entry whose selected files number fewer than 12 fails with the
`"Missing data"` error. -/
theorem processEntry_missing (qmap : List (Nat × Nat)) (files : List SrcFile)
    (e : TargetEntry) (y : Nat) (l : List SrcFile)
    (hq : lookupQ qmap e.quintile = some y)
    (hs : selectInRange (startDate y) (endDate y) files = .ok l)
    (hlen : l.length < 12) :
    processEntry qmap files e = .error (PyErr.missingData y) := by
  unfold processEntry
  simp only [hq, hs]
  rw [if_pos (by rw [sortFiles_length]; exact hlen)]

/-- With a nonempty filtered catalog, a failing first entry aborts the
whole run with its error and no copies. -/
theorem gcs_head_error (e : TargetEntry) (rest : List TargetEntry)
    (qmap : List (Nat × Nat)) (files : List SrcFile) (err : PyErr)
    (hne : filterSLRList files ≠ [])
    (hpe : processEntry qmap (filterSLRList files) e = .error err) :
    generate_combined_sequence (e :: rest) qmap files = ([], some err) := by
  simp only [generate_combined_sequence]
  rw [if_neg (by simpa [List.isEmpty_iff] using hne)]
  simp only [runEntries, hpe]

/-- A run visiting an entry whose selected files number fewer than 12
never finishes without an error. -/
theorem runEntries_error_of_missing (qmap : List (Nat × Nat))
    (files : List SrcFile) (e : TargetEntry) (y : Nat) (l : List SrcFile)
    (hq : lookupQ qmap e.quintile = some y)
    (hs : selectInRange (startDate y) (endDate y) files = .ok l)
    (hlen : l.length < 12) :
    ∀ seq : List TargetEntry, e ∈ seq → (runEntries qmap files seq).2 ≠ none := by
  intro seq
  induction seq with
  | nil => intro h; simp at h
  | cons e2 rest ih =>
    intro hmem hnone
    simp only [runEntries] at hnone
    cases hp : processEntry qmap files e2 with
    | error err => rw [hp] at hnone; simp at hnone
    | ok ops =>
      rw [hp] at hnone
      simp only at hnone
      rcases List.mem_cons.mp hmem with rfl | hmem2
      · rw [processEntry_missing qmap files e y l hq hs hlen] at hp
        cases hp
      · exact ih hmem2 hnone

/-! ## C2: the water-year relabeling rule -/

/-- C2: every file copied by `generate_combined_sequence` is renamed to
`WSE_MEAN_<year>_<month:02d>_<day:02d>.tif` with its original month and
day, where for some target entry of the sequence the year is
`target_year - 1` when the file is dated October, November or December,
and `target_year` for January through September. -/
theorem gcs_rename_rule (seq : List TargetEntry) (qmap : List (Nat × Nat))
    (files : List SrcFile) (op : CopyOp)
    (hop : op ∈ (generate_combined_sequence seq qmap files).1) :
    ∃ e, e ∈ seq ∧ ∃ dt : Date, extract_date op.src = some dt ∧
      op.dest =
        wseName (if dt.month ∈ [10, 11, 12] then e.waterYear - 1 else e.waterYear)
          dt.month dt.day := by
  simp only [generate_combined_sequence] at hop
  cases hemp : (filterSLRList files).isEmpty with
  | true => rw [hemp] at hop; simp at hop
  | false =>
    rw [hemp] at hop
    simp only [Bool.false_eq_true, if_false] at hop
    obtain ⟨e, he, ops, hpe, hin⟩ :=
      runEntries_ops qmap (filterSLRList files) seq op hop
    obtain ⟨y, _, matched, _, hcopy⟩ := processEntry_ok _ _ _ _ hpe
    obtain ⟨dt, hdt, hdest⟩ := copyOpsE_dest e.waterYear _ _ hcopy op hin
    exact ⟨e, he, dt, hdt, hdest⟩

/-- Witness for C2: in the concrete run mapping water year 2005 to target
year 2030, the October 2004 file is copied, and the theorem exhibits its
relabeling to year 2029. -/
theorem gcs_rename_rule_witness :
    ∃ e, e ∈ [entryC] ∧ ∃ dt : Date, extract_date opC.src = some dt ∧
      opC.dest =
        wseName (if dt.month ∈ [10, 11, 12] then e.waterYear - 1 else e.waterYear)
          dt.month dt.day :=
  gcs_rename_rule [entryC] qmapC files12C opC (by decide)

/-! ## C5: the fewer-than-12-files error -/

/-- C5: whenever an entry of the sequence finds fewer than 12 files in
its source water year, the run does not finish without an error; and when
that entry is the first one, the run aborts with the `"Missing data"`
error for that source year before copying anything. -/
theorem gcs_missing_data :
    (∀ (e : TargetEntry) (rest : List TargetEntry) (qmap : List (Nat × Nat))
       (files : List SrcFile) (y : Nat) (l : List SrcFile),
       filterSLRList files ≠ [] →
       lookupQ qmap e.quintile = some y →
       selectInRange (startDate y) (endDate y) (filterSLRList files) = .ok l →
       l.length < 12 →
       generate_combined_sequence (e :: rest) qmap files =
         ([], some (PyErr.missingData y))) ∧
    (∀ (seq : List TargetEntry) (e : TargetEntry) (qmap : List (Nat × Nat))
       (files : List SrcFile) (y : Nat) (l : List SrcFile),
       filterSLRList files ≠ [] → e ∈ seq →
       lookupQ qmap e.quintile = some y →
       selectInRange (startDate y) (endDate y) (filterSLRList files) = .ok l →
       l.length < 12 →
       (generate_combined_sequence seq qmap files).2 ≠ none) := by
  constructor
  · intro e rest qmap files y l hne hq hs hlen
    exact gcs_head_error e rest qmap files _ hne
      (processEntry_missing _ _ _ _ _ hq hs hlen)
  · intro seq e qmap files y l hne hmem hq hs hlen
    simp only [generate_combined_sequence]
    rw [if_neg (by simpa [List.isEmpty_iff] using hne)]
    exact runEntries_error_of_missing _ _ e y l hq hs hlen seq hmem

/-- Witness for C5: with exactly 11 qualifying files for source year
2005, the run aborts with the missing-data error and performs no copy. -/
theorem gcs_missing_data_witness :
    generate_combined_sequence [entryC] qmapC files11C =
      ([], some (PyErr.missingData 2005)) :=
  gcs_missing_data.1 entryC [] qmapC files11C 2005 files11C
    (by decide) (by decide) (by rfl) (by decide)

/-! ## C3: which error fires when a source year has no matching files -/

/-- Counterexample to C3 as stated: a nonempty catalog with zero files in
the requested source water year 2000 (its only file is dated 2005-01-15)
produces the fewer-than-12 `"Missing data"` error, not the distinct
`"No .tif files found"` catalog error. -/
theorem gcs_catalog_error_counterexample :
    (generate_combined_sequence [entryC] qmapD [mkStem 2005 1 15]).2 =
      some (PyErr.missingData 2000) ∧
    (generate_combined_sequence [entryC] qmapD [mkStem 2005 1 15]).2 ≠
      some PyErr.fileNotFound := by
  decide

/-- C3 as amended: the distinct catalog error (`FileNotFoundError`) fires
exactly when the filtered catalog is empty as a whole; a nonempty catalog
with zero files inside the requested first entry's source water year
aborts with the fewer-than-12 `"Missing data"` error instead — in neither
case is the entry silently skipped. -/
theorem gcs_catalog_behavior (seq : List TargetEntry) (qmap : List (Nat × Nat))
    (files : List SrcFile) :
    (filterSLRList files = [] →
       generate_combined_sequence seq qmap files =
         ([], some PyErr.fileNotFound)) ∧
    (∀ (e : TargetEntry) (rest : List TargetEntry) (y : Nat),
       seq = e :: rest → filterSLRList files ≠ [] →
       lookupQ qmap e.quintile = some y →
       selectInRange (startDate y) (endDate y) (filterSLRList files) = .ok [] →
       generate_combined_sequence seq qmap files =
         ([], some (PyErr.missingData y))) := by
  constructor
  · intro h
    simp only [generate_combined_sequence]
    rw [if_pos (by simp [h])]
  · rintro e rest y rfl hne hq hs
    exact gcs_head_error e rest qmap files _ hne
      (processEntry_missing _ _ _ _ _ hq hs (by simp))

/-- Witness for the amended C3: an empty catalog yields the distinct
catalog error. -/
theorem gcs_catalog_behavior_witness :
    generate_combined_sequence [entryC] qmapC ([] : List SrcFile) =
      ([], some PyErr.fileNotFound) :=
  (gcs_catalog_behavior [entryC] qmapC []).1 (by decide)

/-! ## C4: behavior on a file whose name has no valid date -/

/-- C4 (code evaluation at the failing input): `extract_date` does return
the explicit no-date result for an unparsable stem, but
`generate_combined_sequence` then evaluates `start <= None` in its
selection comprehension and aborts with a `TypeError` instead of
excluding the file. -/
theorem gcs_unparsable_file_behavior :
    extract_date noDateStem = none ∧
    generate_combined_sequence [entryC] qmapC [noDateStem] =
      ([], some PyErr.typeError) := by
  decide

/-! ## Helper lemmas about digit formatting and parsing -/

/-- `digChar` of a digit is a digit character. -/
theorem digChar_isDigit (n : Nat) (h : n ≤ 9) :
    isDigitChar (digChar n) = true := by
  interval_cases n <;> decide

/-- `digitVal` recovers the digit rendered by `digChar`. -/
theorem digitVal_digChar (n : Nat) (h : n ≤ 9) :
    digitVal (digChar n) = n := by
  interval_cases n <;> decide

/-- The four-digit year rendering consists of digits. -/
theorem allDigits_fmtYear4 (y : Nat) (h : y ≤ 9999) :
    allDigits (fmtYear4 y) = true := by
  have h1 : y / 1000 ≤ 9 := by omega
  have h2 : y / 100 % 10 ≤ 9 := by omega
  have h3 : y / 10 % 10 ≤ 9 := by omega
  have h4 : y % 10 ≤ 9 := by omega
  simp [allDigits, fmtYear4, digChar_isDigit _ h1, digChar_isDigit _ h2,
    digChar_isDigit _ h3, digChar_isDigit _ h4]

/-- Parsing the four-digit rendering of a year below 10000 recovers it. -/
theorem parseNatTok_fmtYear4 (y : Nat) (h : y ≤ 9999) :
    parseNatTok (fmtYear4 y) = y := by
  have h1 : y / 1000 ≤ 9 := by omega
  have h2 : y / 100 % 10 ≤ 9 := by omega
  have h3 : y / 10 % 10 ≤ 9 := by omega
  have h4 : y % 10 ≤ 9 := by omega
  simp only [fmtYear4, parseNatTok, List.foldl]
  rw [digitVal_digChar _ h1, digitVal_digChar _ h2, digitVal_digChar _ h3,
    digitVal_digChar _ h4]
  omega

/-- The two-digit rendering consists of digits (for values below 100). -/
theorem allDigits_fmt2 (n : Nat) (h : n ≤ 99) :
    allDigits (fmt2 n) = true := by
  unfold fmt2
  split
  · rename_i hlt
    have hn : n ≤ 9 := by omega
    simp [allDigits, digChar_isDigit _ hn,
      show isDigitChar '0' = true from rfl]
  · rename_i hge
    have ha : n / 10 ≤ 9 := by omega
    have hb : n % 10 ≤ 9 := by omega
    simp [allDigits, digChar_isDigit _ ha, digChar_isDigit _ hb]

/-- The two-digit rendering has exactly two characters. -/
theorem fmt2_length (n : Nat) : (fmt2 n).length = 2 := by
  unfold fmt2
  split <;> rfl

/-- Parsing the two-digit rendering of a value below 100 recovers it. -/
theorem parseNatTok_fmt2 (n : Nat) (h : n ≤ 99) :
    parseNatTok (fmt2 n) = n := by
  unfold fmt2
  split
  · rename_i hlt
    have hn : n ≤ 9 := by omega
    simp only [parseNatTok, List.foldl]
    rw [show digitVal '0' = 0 from rfl, digitVal_digChar _ hn]
    omega
  · rename_i hge
    have ha : n / 10 ≤ 9 := by omega
    have hb : n % 10 ≤ 9 := by omega
    simp only [parseNatTok, List.foldl]
    rw [digitVal_digChar _ ha, digitVal_digChar _ hb]
    omega

/-- No month has more than 31 days. -/
theorem daysInMonth_le_31 (y m : Nat) : daysInMonth y m ≤ 31 := by
  unfold daysInMonth
  split
  · split <;> omega
  · split <;> omega

/-- Taking the last three elements of a list ending in exactly three
elements returns those three. -/
theorem drop_last_three (pre : List Token) (a b c : Token) :
    (pre ++ [a, b, c]).drop ((pre ++ [a, b, c]).length - 3) = [a, b, c] := by
  rw [List.length_append]
  have h3 : pre.length + ([a, b, c] : List Token).length - 3 = pre.length := by
    simp
  rw [h3]
  exact List.drop_left pre [a, b, c]

/-- The four-digit year rendering has exactly four characters. -/
theorem fmtYear4_length (y : Nat) : (fmtYear4 y).length = 4 := rfl

/-- On a stem ending in exactly three tokens, `extract_date` parses those
three tokens. -/
theorem extract_date_append3 (pre : List Token) (a b c : Token) :
    extract_date (pre ++ [a, b, c]) = parseDateTokens a b c := by
  unfold extract_date
  rw [drop_last_three]

/-! ## C7: the date round trip -/

/-- C7: for every valid calendar date, appending its `YYYY_MM_DD`
rendering as three trailing underscore-delimited tokens to any stem and
extracting gives the date back. -/
theorem extract_date_round_trip (pre : List Token) (y m d : Nat)
    (hy1 : 1 ≤ y) (hy2 : y ≤ 9999) (hm1 : 1 ≤ m) (hm2 : m ≤ 12)
    (hd1 : 1 ≤ d) (hd2 : d ≤ daysInMonth y m) :
    extract_date (pre ++ [fmtYear4 y, fmt2 m, fmt2 d]) = some ⟨y, m, d⟩ := by
  have hd31 : d ≤ 31 := le_trans hd2 (daysInMonth_le_31 y m)
  rw [extract_date_append3]
  unfold parseDateTokens
  simp only [fmt2_length, fmtYear4_length, allDigits_fmtYear4 y hy2,
    allDigits_fmt2 m (by omega), allDigits_fmt2 d (by omega),
    parseNatTok_fmtYear4 y hy2, parseNatTok_fmt2 m (by omega),
    parseNatTok_fmt2 d (by omega)]
  simp [hy1, hm1, hm2, hd1, hd2]

/-- Witness for C7 at the concrete date 2005-11-15 with a realistic
`WSE_MEAN` stem. -/
theorem extract_date_round_trip_witness :
    extract_date ([['W', 'S', 'E'], ['M', 'E', 'A', 'N']] ++
        [fmtYear4 2005, fmt2 11, fmt2 15]) =
      some ⟨2005, 11, 15⟩ :=
  extract_date_round_trip [['W', 'S', 'E'], ['M', 'E', 'A', 'N']] 2005 11 15
    (by decide) (by decide) (by decide) (by decide) (by decide) (by decide)

/-! ## Helper lemma about `create_dataset_from_template` -/

/-- The variable loop succeeds — with exactly the input variables, each
re-dimensioned with the template's dims — iff every variable's array
shape equals the reference shape; and any mismatching variable forces a
shape-mismatch error. -/
theorem addVars_spec (t : TemplateDataset) :
    ∀ nvs : List NewVar,
      (addVars t nvs =
          .ok (nvs.map (fun v => ⟨v.1, v.2.1, t.wse_mean.dims, v.2.2⟩)) ↔
        ∀ v ∈ nvs, v.2.1.shape = t.wse_mean.shape) ∧
      ((∃ v ∈ nvs, v.2.1.shape ≠ t.wse_mean.shape) →
        ∃ n, addVars t nvs = .error (PyErr.shapeMismatch n)) := by
  intro nvs
  induction nvs with
  | nil =>
    constructor
    · simp [addVars]
    · rintro ⟨v, hv, -⟩
      simp at hv
  | cons nv rest ih =>
    obtain ⟨name, data, attrs⟩ := nv
    by_cases hsh : data.shape = t.wse_mean.shape
    · have hcond : ¬(data.shape ≠ t.wse_mean.shape) := fun hne => hne hsh
      constructor
      · constructor
        · intro h
          simp only [addVars, if_neg hcond] at h
          cases hrec : addVars t rest with
          | error e => rw [hrec] at h; exact Except.noConfusion h
          | ok vs =>
            rw [hrec] at h
            simp only [Except.ok.injEq, List.map_cons] at h
            injection h with h3 h4
            intro v hv
            rcases List.mem_cons.mp hv with rfl | hv2
            · exact hsh
            · exact (ih.1).mp (by rw [hrec, h4]) v hv2
        · intro hall
          have hrest : ∀ v ∈ rest, v.2.1.shape = t.wse_mean.shape :=
            fun v hv => hall v (List.mem_cons_of_mem _ hv)
          simp only [addVars, if_neg hcond]
          rw [(ih.1).mpr hrest]
          simp
      · rintro ⟨v, hv, hne⟩
        rcases List.mem_cons.mp hv with rfl | hv2
        · exact absurd hsh hne
        · obtain ⟨n, hn⟩ := ih.2 ⟨v, hv2, hne⟩
          refine ⟨n, ?_⟩
          simp only [addVars, if_neg hcond, hn]
    · constructor
      · constructor
        · intro h
          simp only [addVars, if_pos hsh] at h
          exact Except.noConfusion h
        · intro hall
          exact absurd (hall ⟨name, data, attrs⟩ (List.mem_cons_self _ _)) hsh
      · intro _
        refine ⟨name, ?_⟩
        simp only [addVars, if_pos hsh]

/-! ## C8: shape checking in the template builder -/

/-- C8: `create_dataset_from_template` succeeds — copying the template's
coords and attrs and adding every new variable with the template's dims —
exactly when every new variable's array shape equals the template's
`WSE_MEAN` shape (the check never consults dimension labels, which the
raw arrays do not carry); any variable with a differing shape forces the
fatal shape-mismatch error instead, with no coercion or broadcasting
path. -/
theorem create_dataset_spec (t : TemplateDataset) (nvs : List NewVar) :
    (create_dataset_from_template t nvs =
        .ok ⟨t.coords, nvs.map (fun v => ⟨v.1, v.2.1, t.wse_mean.dims, v.2.2⟩),
             t.attrs⟩ ↔
      ∀ v ∈ nvs, v.2.1.shape = t.wse_mean.shape) ∧
    ((∃ v ∈ nvs, v.2.1.shape ≠ t.wse_mean.shape) →
      ∃ n, create_dataset_from_template t nvs =
        .error (PyErr.shapeMismatch n)) := by
  constructor
  · constructor
    · intro h
      unfold create_dataset_from_template at h
      cases hav : addVars t nvs with
      | error e => rw [hav] at h; exact Except.noConfusion h
      | ok vs =>
        rw [hav] at h
        have hv : vs = nvs.map (fun v => ⟨v.1, v.2.1, t.wse_mean.dims, v.2.2⟩) := by
          have hvars :=
            congrArg (fun x => match x with | Except.ok d => d.vars | Except.error _ => ([] : List OutVar)) h
          simpa using hvars
        exact ((addVars_spec t nvs).1).mp (by rw [hav, hv])
    · intro hall
      unfold create_dataset_from_template
      rw [((addVars_spec t nvs).1).mpr hall]
  · intro hex
    obtain ⟨n, hn⟩ := (addVars_spec t nvs).2 hex
    refine ⟨n, ?_⟩
    unfold create_dataset_from_template
    rw [hn]

/-- Witness for C8: the concrete batch containing a 2-D variable against
a 3-D template is rejected with a shape-mismatch error. -/
theorem create_dataset_spec_witness :
    ∃ n, create_dataset_from_template tmplC nvsBadC =
      .error (PyErr.shapeMismatch n) :=
  (create_dataset_spec tmplC nvsBadC).2 ⟨nvBadC, by decide, by decide⟩
